import Mathlib

/-!
Verification development for the Shanal booking platform.

The booking lifecycle core is embedded shallowly:
* `BookingDoc` mirrors the Firestore booking document
  (src/app/models/booking.model.ts, the fields written by the code).
* `createBooking` / `updateBookingStatus` mirror
  src/app/services/booking.service.ts.
* `generatePaymentLink`, `handleStripeWebhook` and its per-event helpers
  mirror the payment functions (functions source, part_005).
* `sendOwnerNotification` / `notifyOwnerOnBooking` mirror
  functions/src/index.ts.
* `submitBooking` and the rental pricing getters mirror the home
  component (part_001).

Timestamps (`new Date()` / `FieldValue.serverTimestamp()`) are modelled as
an explicit `now : Int` parameter (epoch milliseconds); the Firestore
collection is modelled as an association list `Store`, whose `update`
fails exactly when the document id is absent, as Firestore `update` does.
-/

namespace Shanal

/-- Booking status values, as in booking.model.ts plus the `error` status
written by the payment-link trigger. -/
inductive BookingStatus where
  | pending
  | pendingPayment
  | confirmed
  | cancelled
  | error
  deriving DecidableEq, Repr

/-- Result of `new Date(s)` in the functions code: either a valid instant
(epoch milliseconds) or an Invalid Date (NaN time value). -/
inductive JSDate where
  | invalid
  | at (ms : Int)
  deriving DecidableEq, Repr

/-- A date `<input type="date">` field as submitted: empty string (falsy),
a non-empty string that does not parse, or a calendar date, identified by
its day index from the epoch (`new Date("YYYY-MM-DD")` is UTC midnight of
that day). -/
inductive DateField where
  | empty
  | invalid
  | day (d : Int)
  deriving DecidableEq, Repr

/-- One day in milliseconds (1000 * 60 * 60 * 24). -/
def dayMs : Int := 86400000

/-- JS truthiness of a date input string. -/
def truthyDate : DateField → Bool
  | .empty => false
  | .invalid => true
  | .day _ => true

/-- `new Date(s)` on a date input string: empty and unparseable strings
give an Invalid Date, a calendar date gives its UTC midnight. -/
def parseDate : DateField → JSDate
  | .empty => .invalid
  | .invalid => .invalid
  | .day d => .at (d * dayMs)

/-- JS `<` on Date objects (numeric compare; any NaN comparison is false). -/
def jsDateLt : JSDate → JSDate → Bool
  | .at a, .at b => a < b
  | _, _ => false

/-- The booking document as the code writes it.  `Option` fields model
Firestore fields that may be absent; `none` means the field is not on the
document.  Times are epoch milliseconds. -/
structure BookingDoc where
  customerName : String := ""
  customerPhone : String := ""
  serviceName : String := ""
  customerEmail : Option String := none
  notes : Option String := none
  bookingDate : Option JSDate := none
  rentalStart : Option JSDate := none
  rentalEnd : Option JSDate := none
  status : BookingStatus := .pending
  paidAt : Option Int := none
  paymentLink : Option String := none
  paymentId : Option (Option String) := none
  confirmedBy : Option String := none
  confirmedAt : Option Int := none
  ownerNotifiedAt : Option Int := none
  createdAt : Int := 0
  updatedAt : Int := 0
  deriving DecidableEq, Repr

/-- Booking form data (booking.model.ts `BookingFormData`): strings from
the form; date fields are date-input strings. -/
structure BookingFormData where
  customerName : String := ""
  customerPhone : String := ""
  serviceName : String := ""
  customerEmail : Option String := none
  bookingDate : DateField := .empty
  startDate : DateField := .empty
  endDate : DateField := .empty
  notes : Option String := none
  deriving DecidableEq, Repr

/-- The bookings collection: an association list from document id to
document. -/
abbrev Store := List (String × BookingDoc)

/-- Look a document up by id. -/
def storeGet : Store → String → Option BookingDoc
  | [], _ => none
  | (k, v) :: rest, id => if k = id then some v else storeGet rest id

/-- Replace the document stored under an id (no effect when absent). -/
def storeSet : Store → String → BookingDoc → Store
  | [], _, _ => []
  | (k, v) :: rest, id, b =>
      if k = id then (k, b) :: storeSet rest id b
      else (k, v) :: storeSet rest id b

/-- `addDoc`: append a fresh document under a store-generated id. -/
def storeInsert (s : Store) (id : String) (b : BookingDoc) : Store :=
  s ++ [(id, b)]

/-- Firestore `update(ref, fields)`: merges fields into the existing
document and rejects when the document does not exist. -/
def firestoreUpdate (s : Store) (id : String) (f : BookingDoc → BookingDoc) :
    Except Unit Store :=
  match storeGet s id with
  | none => .error ()
  | some b => .ok (storeSet s id (f b))

/-- `BookingService.createBooking` (booking.service.ts:29-61): base fields
always written (name, phone, service, notes, status pending, createdAt,
updatedAt); customerEmail only when the trimmed email is truthy;
bookingDate / rentalStart / rentalEnd only when the corresponding form
string is truthy. -/
def createBooking (fd : BookingFormData) (now : Int) : BookingDoc :=
  { customerName := fd.customerName
    customerPhone := fd.customerPhone
    serviceName := fd.serviceName
    notes := fd.notes
    status := .pending
    createdAt := now
    updatedAt := now
    customerEmail :=
      match fd.customerEmail with
      | some e => if e.trim = "" then none else some e.trim
      | none => none
    bookingDate :=
      if truthyDate fd.bookingDate then some (parseDate fd.bookingDate) else none
    rentalStart :=
      if truthyDate fd.startDate then some (parseDate fd.startDate) else none
    rentalEnd :=
      if truthyDate fd.endDate then some (parseDate fd.endDate) else none }

/-- `BookingService.updateBookingStatus` (booking.service.ts:79-88), the
field merge it applies to the targeted document: set status, bump
updatedAt, and set paidAt=now when confirming or delete it otherwise. -/
def updateBookingStatus (b : BookingDoc) (status : BookingStatus) (now : Int) :
    BookingDoc :=
  { b with
    status := status
    updatedAt := now
    paidAt := if status = .confirmed then some now else none }

/-- Store-level `updateBookingStatus`: `updateDoc` on the booking ref,
failing when the id does not exist. -/
def updateStatus (s : Store) (id : String) (status : BookingStatus) (now : Int) :
    Except Unit Store :=
  firestoreUpdate s id (fun b => updateBookingStatus b status now)

/-- The `paidAt` ⇔ `confirmed` document invariant claimed by the spec. -/
def paidAtInvariant (b : BookingDoc) : Prop :=
  b.paidAt.isSome ↔ b.status = .confirmed

instance (b : BookingDoc) : Decidable (paidAtInvariant b) := by
  unfold paidAtInvariant
  infer_instance

/-- Key of `storeSet`: setting an id rewrites exactly the document stored
under that id. -/
theorem storeGet_storeSet (s : Store) (id : String) (b : BookingDoc) :
    storeGet (storeSet s id b) id = (storeGet s id).map (fun _ => b) := by
  induction s with
  | nil => rfl
  | cons hd tl ih =>
      obtain ⟨k, v⟩ := hd
      by_cases hk : k = id
      · simp [storeSet, storeGet, hk]
      · simp [storeSet, storeGet, hk, ih]

/-- `firestoreUpdate` on an existing document rewrites it in place. -/
theorem firestoreUpdate_of_get (s : Store) (id : String) (b : BookingDoc)
    (f : BookingDoc → BookingDoc) (h : storeGet s id = some b) :
    firestoreUpdate s id f = .ok (storeSet s id (f b)) := by
  simp [firestoreUpdate, h]

/-! ## Payment Link Orchestrator (functions, part_005) -/

/-- JS truthiness of an optional string field (`bookingData.paymentLink`). -/
def truthyStr : Option String → Bool
  | none => false
  | some s => s ≠ ""

/-- Outcome of the `stripe.paymentLinks.create` call. -/
inductive StripeResult where
  | ok (url : String)
  | fail
  deriving DecidableEq, Repr

/-- `generatePaymentLink` (part_005:585-678), as a function of the
created document: returns the number of payment-provider calls made and
the resulting document.  Skip when status is not pending or a payment
link already exists; without Stripe configured, move to pending_payment
with no link; otherwise call the provider and either store the link and
move to pending_payment, or (on provider error) set status error. -/
def generatePaymentLink (stripeConfigured : Bool) (res : StripeResult)
    (b : BookingDoc) (now : Int) : Nat × BookingDoc :=
  if b.status ≠ .pending ∨ truthyStr b.paymentLink then
    (0, b)
  else if ¬stripeConfigured then
    (0, { b with status := .pendingPayment, updatedAt := now })
  else
    match res with
    | .ok url =>
        (1, { b with
              paymentLink := some url
              status := .pendingPayment
              updatedAt := now })
    | .fail =>
        (1, { b with status := .error, updatedAt := now })

/-- A Stripe Checkout session as the webhook sees it: the bookingId from
`session.metadata` and `session.payment_intent`. -/
structure CheckoutSession where
  bookingId : Option String
  paymentIntent : Option String
  deriving DecidableEq, Repr

/-- A Stripe PaymentIntent as the webhook sees it: its id and the
bookingId from `paymentIntent.metadata`. -/
structure PaymentIntent where
  id : String
  bookingId : Option String
  deriving DecidableEq, Repr

/-- The field merge `handleCheckoutSessionCompleted` applies: status
confirmed, paymentId from the session, updatedAt bumped — and no paidAt. -/
def checkoutSessionUpdate (sess : CheckoutSession) (now : Int)
    (b : BookingDoc) : BookingDoc :=
  { b with
    status := .confirmed
    paymentId := some sess.paymentIntent
    updatedAt := now }

/-- `handleCheckoutSessionCompleted` (part_005:729-749): no bookingId in
the metadata means no mutation; a failing store update is caught and also
leaves the store unchanged. -/
def handleCheckoutSessionCompleted (s : Store) (sess : CheckoutSession)
    (now : Int) : Store :=
  match sess.bookingId with
  | none => s
  | some id =>
      match firestoreUpdate s id (checkoutSessionUpdate sess now) with
      | .ok s2 => s2
      | .error _ => s

/-- The field merge `handlePaymentIntentSucceeded` applies: status
confirmed, paymentId = the intent's id, updatedAt bumped — no paidAt. -/
def paymentIntentUpdate (pi : PaymentIntent) (now : Int)
    (b : BookingDoc) : BookingDoc :=
  { b with
    status := .confirmed
    paymentId := some (some pi.id)
    updatedAt := now }

/-- `handlePaymentIntentSucceeded` (part_005:754-774). -/
def handlePaymentIntentSucceeded (s : Store) (pi : PaymentIntent)
    (now : Int) : Store :=
  match pi.bookingId with
  | none => s
  | some id =>
      match firestoreUpdate s id (paymentIntentUpdate pi now) with
      | .ok s2 => s2
      | .error _ => s

/-- The events the webhook switch distinguishes. -/
inductive WebhookEvent where
  | checkout (sess : CheckoutSession)
  | intent (pi : PaymentIntent)
  | other (eventType : String)
  deriving DecidableEq, Repr

/-- The webhook endpoint's responses: 503 "Stripe not configured",
400 "Webhook Error", or the 200 JSON body with received=true. -/
inductive WebhookResponse where
  | notConfigured
  | badSignature
  | received
  deriving DecidableEq, Repr

/-- HTTP status code of each webhook response. -/
def webhookStatusCode : WebhookResponse → Nat
  | .notConfigured => 503
  | .badSignature => 400
  | .received => 200

/-- `handleStripeWebhook` (part_005:684-724): 503 when Stripe is not
configured, 400 when `constructEvent` rejects the signature, otherwise
dispatch on the event type (unrecognized types only logged) and answer
200 received=true. -/
def handleStripeWebhook (stripeConfigured sigValid : Bool)
    (event : WebhookEvent) (s : Store) (now : Int) :
    WebhookResponse × Store :=
  if ¬stripeConfigured then
    (.notConfigured, s)
  else if ¬sigValid then
    (.badSignature, s)
  else
    let s2 :=
      match event with
      | .checkout sess => handleCheckoutSessionCompleted s sess now
      | .intent pi => handlePaymentIntentSucceeded s pi now
      | .other _ => s
    (.received, s2)

/-! ## Admin confirm endpoint (functions/src/index.ts:225-259) -/

/-- The field merge the admin `confirmBooking` endpoint applies: status
confirmed, confirmedBy/confirmedAt, updatedAt bumped — and no paidAt. -/
def confirmBookingUpdate (adminId : String) (now : Int)
    (b : BookingDoc) : BookingDoc :=
  { b with
    status := .confirmed
    confirmedBy := some adminId
    confirmedAt := some now
    updatedAt := now }

/-- Responses of the admin confirm endpoint. -/
inductive ConfirmResponse where
  | methodNotAllowed
  | missingFields
  | adminRequired
  | success
  | serverError
  deriving DecidableEq, Repr

/-- `confirmBooking` (functions/src/index.ts:225-259): 405 on non-POST,
400 on missing fields, 403 without the admin claim, 500 when user lookup
or the store update throws, else update and 200.  `getUserAdmin` models
`auth.getUser` plus the claim read: `none` when the lookup throws. -/
def confirmBooking (method : String) (bookingId adminId : Option String)
    (getUserAdmin : String → Option Bool) (s : Store) (now : Int) :
    ConfirmResponse × Store :=
  if method ≠ "POST" then
    (.methodNotAllowed, s)
  else
    match bookingId, adminId with
    | some bid, some aid =>
        (match getUserAdmin aid with
         | none => (.serverError, s)
         | some isAdmin =>
             if ¬isAdmin then
               (.adminRequired, s)
             else
               match firestoreUpdate s bid (confirmBookingUpdate aid now) with
               | .ok s2 => (.success, s2)
               | .error _ => (.serverError, s))
    | _, _ => (.missingFields, s)

/-! ## Notification Dispatcher (functions/src/index.ts:155-222) -/

/-- The two outbound channels, in the order the code pushes them. -/
inductive Channel where
  | email
  | whatsapp
  deriving DecidableEq, Repr

/-- What one `trySend…` attempt does: return false when its credentials
are missing, throw when the provider call fails, return true on success. -/
inductive ChannelOutcome where
  | unconfigured
  | failed
  | sent
  deriving DecidableEq, Repr

/-- The attempt loop of `sendOwnerNotification`: run each attempt in
order, record it, stop at the first that returns true; thrown errors are
caught and the loop continues. Returns (delivered, channels attempted). -/
def runAttempts : List (Channel × ChannelOutcome) → Bool × List Channel
  | [] => (false, [])
  | (c, o) :: rest =>
      match o with
      | .sent => (true, [c])
      | .unconfigured =>
          let r := runAttempts rest
          (r.1, c :: r.2)
      | .failed =>
          let r := runAttempts rest
          (r.1, c :: r.2)

/-- `sendOwnerNotification` (functions/src/index.ts:155-191): email is
attempted first, WhatsApp second; throws when nothing was delivered. -/
def sendOwnerNotification (email whatsapp : ChannelOutcome) :
    Except Unit (List Channel) :=
  let r := runAttempts [(.email, email), (.whatsapp, whatsapp)]
  if r.1 then .ok r.2 else .error ()

/-- `notifyOwnerOnBooking` (functions/src/index.ts:198-222), as a
function of the created document: on delivery success stamp
ownerNotifiedAt and bump updatedAt; on failure the error is only logged
and the document untouched.  Also returns the channels attempted. -/
def notifyOwnerOnBooking (email whatsapp : ChannelOutcome)
    (b : BookingDoc) (now : Int) : BookingDoc × List Channel :=
  match sendOwnerNotification email whatsapp with
  | .ok tried =>
      ({ b with ownerNotifiedAt := some now, updatedAt := now }, tried)
  | .error _ =>
      (b, (runAttempts [(.email, email), (.whatsapp, whatsapp)]).2)

/-! ## Home component (part_001) -/

/-- Result of `HomeComponent.submitBooking`: an alert-and-return on
validation failure, or the created booking id. -/
inductive SubmitResult where
  | validationError
  | created (id : String)
  deriving DecidableEq, Repr

/-- `HomeComponent.submitBooking` (part_001:102-130), store effect only:
car-rental requires both rental dates and rejects end before start;
other services require a booking date; otherwise `createBooking` inserts
the document under a fresh id. -/
def submitBooking (serviceId : String) (fd : BookingFormData) (s : Store)
    (now : Int) (newId : String) : SubmitResult × Store :=
  if serviceId = "car-rental" ∧
      ¬(truthyDate fd.startDate ∧ truthyDate fd.endDate) then
    (.validationError, s)
  else if serviceId = "car-rental" ∧ truthyDate fd.startDate ∧
      truthyDate fd.endDate ∧
      jsDateLt (parseDate fd.endDate) (parseDate fd.startDate) then
    (.validationError, s)
  else if serviceId ≠ "car-rental" ∧ ¬truthyDate fd.bookingDate then
    (.validationError, s)
  else
    (.created newId, storeInsert s newId (createBooking fd now))

/-- `HomeComponent.rentalDays` (part_001:191-206): 0 when either date is
missing or unparseable, else `Math.floor(ms / dayMs) + 1` clamped at 0.
`Int.fdiv` is floor division, as `Math.floor` of the real quotient. -/
def rentalDays (startDate endDate : DateField) : Int :=
  if ¬(truthyDate startDate ∧ truthyDate endDate) then 0
  else
    match parseDate startDate, parseDate endDate with
    | .at s, .at e =>
        let ms := e - s
        let days := Int.fdiv ms dayMs + 1
        if days > 0 then days else 0
    | _, _ => 0

/-- `HomeComponent.rentalTotal` (part_001:199-206): 0 unless the selected
service is the car rental, else rentalDays times the per-day price. -/
def rentalTotal (isCarRental : Bool) (pricePerDay : Int)
    (startDate endDate : DateField) : Int :=
  if isCarRental then rentalDays startDate endDate * pricePerDay else 0

/-- Ceiling division on integers: `ceil(a / b)` for b > 0, as the spec's
`ceil(ms_difference / day_ms)`. -/
def ceilDivInt (a b : Int) : Int :=
  -(Int.fdiv (-a) b)

/-- `handleCheckoutSessionCompleted` on an existing booking id rewrites
that document with the confirmation merge. -/
theorem handleCheckout_of_get (s : Store) (id : String) (b : BookingDoc)
    (piOpt : Option String) (t : Int) (h : storeGet s id = some b) :
    handleCheckoutSessionCompleted s ⟨some id, piOpt⟩ t =
      storeSet s id (checkoutSessionUpdate ⟨some id, piOpt⟩ t b) := by
  simp [handleCheckoutSessionCompleted, firestoreUpdate_of_get s id b _ h]

/-- `handlePaymentIntentSucceeded` on an existing booking id rewrites
that document with the confirmation merge. -/
theorem handleIntent_of_get (s : Store) (id : String) (b : BookingDoc)
    (intId : String) (t : Int) (h : storeGet s id = some b) :
    handlePaymentIntentSucceeded s ⟨intId, some id⟩ t =
      storeSet s id (paymentIntentUpdate ⟨intId, some id⟩ t b) := by
  simp [handlePaymentIntentSucceeded, firestoreUpdate_of_get s id b _ h]

/-! ## Concrete fixtures used by witnesses and counterexamples -/

/-- A freshly created pending booking with no paidAt. -/
def pendingBooking : BookingDoc :=
  { customerName := "Jane Doe"
    customerPhone := "+23012345"
    serviceName := "Car Rental"
    status := .pending
    createdAt := 0
    updatedAt := 3 }

/-- A one-document store holding `pendingBooking` under id bk1. -/
def oneBookingStore : Store := [("bk1", pendingBooking)]

/-- The checkout-completed session event for bk1. -/
def sessionForBk1 : CheckoutSession := ⟨some "bk1", some "pi-77"⟩

/-! ## Claims -/

/-- Claim C1 (amended): only `updateBookingStatus` maintains the
`paidAt` ⇔ confirmed invariant.  The two Stripe webhook confirmation
merges and the admin confirm endpoint's merge all set status confirmed
while leaving `paidAt` exactly as it was, so a booking without `paidAt`
confirmed through any of them violates the invariant. -/
theorem paidAt_invariant_per_operation (b : BookingDoc) (st : BookingStatus)
    (now : Int) (sess : CheckoutSession) (pi : PaymentIntent) (adminId : String) :
    paidAtInvariant (updateBookingStatus b st now) ∧
    ((checkoutSessionUpdate sess now b).status = .confirmed ∧
      (checkoutSessionUpdate sess now b).paidAt = b.paidAt) ∧
    ((paymentIntentUpdate pi now b).status = .confirmed ∧
      (paymentIntentUpdate pi now b).paidAt = b.paidAt) ∧
    ((confirmBookingUpdate adminId now b).status = .confirmed ∧
      (confirmBookingUpdate adminId now b).paidAt = b.paidAt) := by
  refine ⟨?_, ⟨rfl, rfl⟩, ⟨rfl, rfl⟩, ⟨rfl, rfl⟩⟩
  cases st <;> simp [paidAtInvariant, updateBookingStatus]

/-- Claim C1 counterexample: running the checkout-completed webhook
handler on a pending booking without `paidAt` yields a document whose
status is confirmed but which has no `paidAt`, so the claimed invariant
fails on the webhook confirmation path. -/
theorem paidAt_invariant_webhook_counterexample :
    storeGet (handleCheckoutSessionCompleted oneBookingStore sessionForBk1 7) "bk1"
      = some (checkoutSessionUpdate sessionForBk1 7 pendingBooking) ∧
    (checkoutSessionUpdate sessionForBk1 7 pendingBooking).status = .confirmed ∧
    (checkoutSessionUpdate sessionForBk1 7 pendingBooking).paidAt = none ∧
    ¬paidAtInvariant (checkoutSessionUpdate sessionForBk1 7 pendingBooking) := by
  decide

/-- Claim C2: on an existing booking id, `updateStatus(id, confirmed)`
stores a `paidAt` at least the booking's previous `updatedAt`, any other
status clears `paidAt`, and every call sets `updatedAt` to now. -/
theorem updateStatus_paidAt_spec (s : Store) (id : String) (b : BookingDoc)
    (st : BookingStatus) (now : Int)
    (hb : storeGet s id = some b) (hm : b.updatedAt ≤ now) :
    (∃ s1, updateStatus s id .confirmed now = .ok s1 ∧
      ∃ d, storeGet s1 id = some d ∧
        (∃ t, d.paidAt = some t ∧ b.updatedAt ≤ t) ∧ d.updatedAt = now) ∧
    (st ≠ .confirmed →
      ∃ s2, updateStatus s id st now = .ok s2 ∧
        ∃ d, storeGet s2 id = some d ∧ d.paidAt = none ∧ d.updatedAt = now) := by
  constructor
  · refine ⟨storeSet s id (updateBookingStatus b .confirmed now), ?_, ?_⟩
    · rw [updateStatus, firestoreUpdate_of_get s id b _ hb]
    · refine ⟨updateBookingStatus b .confirmed now, ?_, ⟨now, ?_, hm⟩, rfl⟩
      · simp [storeGet_storeSet, hb]
      · simp [updateBookingStatus]
  · intro hst
    refine ⟨storeSet s id (updateBookingStatus b st now), ?_, ?_⟩
    · rw [updateStatus, firestoreUpdate_of_get s id b _ hb]
    · refine ⟨updateBookingStatus b st now, ?_, ?_, rfl⟩
      · simp [storeGet_storeSet, hb]
      · simp [updateBookingStatus, hst]

/-- Claim C2 witness: the theorem applied to the concrete one-booking
store, confirming at time 5 and cancelling at time 5. -/
theorem updateStatus_paidAt_spec_witness :
    (∃ s1, updateStatus oneBookingStore "bk1" .confirmed 5 = .ok s1 ∧
      ∃ d, storeGet s1 "bk1" = some d ∧
        (∃ t, d.paidAt = some t ∧ pendingBooking.updatedAt ≤ t) ∧
        d.updatedAt = 5) ∧
    (∃ s2, updateStatus oneBookingStore "bk1" .cancelled 5 = .ok s2 ∧
      ∃ d, storeGet s2 "bk1" = some d ∧ d.paidAt = none ∧ d.updatedAt = 5) := by
  have h := updateStatus_paidAt_spec oneBookingStore "bk1" pendingBooking
    .cancelled 5 (by decide) (by decide)
  exact ⟨h.1, h.2 (by decide)⟩

/-- Claim C3: the payment-link trigger skips (zero provider calls,
document unchanged) whenever status is not pending or a payment link is
already set; and after a successful linking run, a second invocation on
the linked document is a no-op. -/
theorem generatePaymentLink_idempotent (cfg cfg2 : Bool)
    (res res2 : StripeResult) (b : BookingDoc) (now now2 : Int) (url : String) :
    (b.status ≠ .pending ∨ truthyStr b.paymentLink →
      generatePaymentLink cfg res b now = (0, b)) ∧
    (b.status = .pending → b.paymentLink = none →
      generatePaymentLink true (.ok url) b now =
        (1, { b with
              paymentLink := some url
              status := .pendingPayment
              updatedAt := now }) ∧
      generatePaymentLink cfg2 res2
          { b with
            paymentLink := some url
            status := .pendingPayment
            updatedAt := now } now2 =
        (0, { b with
              paymentLink := some url
              status := .pendingPayment
              updatedAt := now })) := by
  constructor
  · intro h
    rw [generatePaymentLink.eq_def, if_pos h]
  · intro hp hl
    constructor
    · rw [generatePaymentLink.eq_def, if_neg (by simp [hp, hl, truthyStr])]
      simp
    · rw [generatePaymentLink.eq_def, if_pos (by simp)]

/-- Claim C3 witness: the theorem at a cancelled booking (skip branch)
and at the concrete pending booking being linked then re-triggered. -/
theorem generatePaymentLink_idempotent_witness :
    generatePaymentLink true .fail
        { pendingBooking with status := .cancelled } 9 =
      (0, { pendingBooking with status := .cancelled }) ∧
    generatePaymentLink true (.ok "https://pay.example/x") pendingBooking 9 =
      (1, { pendingBooking with
            paymentLink := some "https://pay.example/x"
            status := .pendingPayment
            updatedAt := 9 }) ∧
    generatePaymentLink true .fail
        { pendingBooking with
          paymentLink := some "https://pay.example/x"
          status := .pendingPayment
          updatedAt := 9 } 11 =
      (0, { pendingBooking with
            paymentLink := some "https://pay.example/x"
            status := .pendingPayment
            updatedAt := 9 }) := by
  have h1 := (generatePaymentLink_idempotent true true .fail .fail
    { pendingBooking with status := .cancelled } 9 11 "u").1 (by decide)
  have h2 := (generatePaymentLink_idempotent true true (.ok "u") .fail
    pendingBooking 9 11 "https://pay.example/x").2 (by decide) (by decide)
  exact ⟨h1, h2.1, h2.2⟩

/-- Claim C4 counterexample: delivering the same checkout-completed
event twice is not a no-op — the second delivery bumps `updatedAt` again
(server timestamp of the second call), so the store after the second
delivery differs from the store after the first. -/
theorem webhook_second_delivery_not_noop :
    handleCheckoutSessionCompleted
        (handleCheckoutSessionCompleted oneBookingStore sessionForBk1 1)
        sessionForBk1 2 ≠
      handleCheckoutSessionCompleted oneBookingStore sessionForBk1 1 := by
  decide

/-- Claim C4 (amended): delivering the same valid payment-confirmation
event twice transitions the booking to confirmed exactly once (the first
delivery already leaves it confirmed), and the second delivery changes
nothing except overwriting `updatedAt` with the second delivery's server
timestamp; this holds for both recognized event kinds. -/
theorem webhook_redelivery_only_bumps_updatedAt (s : Store) (id : String)
    (b : BookingDoc) (piOpt : Option String) (intId : String) (t1 t2 : Int)
    (hb : storeGet s id = some b) :
    (∃ d1, storeGet (handleCheckoutSessionCompleted s ⟨some id, piOpt⟩ t1) id
        = some d1 ∧
      d1.status = .confirmed ∧
      handleCheckoutSessionCompleted
          (handleCheckoutSessionCompleted s ⟨some id, piOpt⟩ t1)
          ⟨some id, piOpt⟩ t2 =
        storeSet (handleCheckoutSessionCompleted s ⟨some id, piOpt⟩ t1) id
          { d1 with updatedAt := t2 }) ∧
    (∃ d1, storeGet (handlePaymentIntentSucceeded s ⟨intId, some id⟩ t1) id
        = some d1 ∧
      d1.status = .confirmed ∧
      handlePaymentIntentSucceeded
          (handlePaymentIntentSucceeded s ⟨intId, some id⟩ t1)
          ⟨intId, some id⟩ t2 =
        storeSet (handlePaymentIntentSucceeded s ⟨intId, some id⟩ t1) id
          { d1 with updatedAt := t2 }) := by
  constructor
  · have hs1 := handleCheckout_of_get s id b piOpt t1 hb
    have hget : storeGet (handleCheckoutSessionCompleted s ⟨some id, piOpt⟩ t1)
        id = some (checkoutSessionUpdate ⟨some id, piOpt⟩ t1 b) := by
      rw [hs1, storeGet_storeSet, hb]
      rfl
    refine ⟨checkoutSessionUpdate ⟨some id, piOpt⟩ t1 b, hget, rfl, ?_⟩
    rw [handleCheckout_of_get _ id _ piOpt t2 hget]
    rfl
  · have hs1 := handleIntent_of_get s id b intId t1 hb
    have hget : storeGet (handlePaymentIntentSucceeded s ⟨intId, some id⟩ t1)
        id = some (paymentIntentUpdate ⟨intId, some id⟩ t1 b) := by
      rw [hs1, storeGet_storeSet, hb]
      rfl
    refine ⟨paymentIntentUpdate ⟨intId, some id⟩ t1 b, hget, rfl, ?_⟩
    rw [handleIntent_of_get _ id _ intId t2 hget]
    rfl

/-- Claim C4 witness: the amended theorem at the concrete one-booking
store with deliveries at times 1 and 2. -/
theorem webhook_redelivery_witness :
    (∃ d1, storeGet
        (handleCheckoutSessionCompleted oneBookingStore ⟨some "bk1", some "pi-77"⟩ 1)
        "bk1" = some d1 ∧
      d1.status = .confirmed ∧
      handleCheckoutSessionCompleted
          (handleCheckoutSessionCompleted oneBookingStore
            ⟨some "bk1", some "pi-77"⟩ 1)
          ⟨some "bk1", some "pi-77"⟩ 2 =
        storeSet
          (handleCheckoutSessionCompleted oneBookingStore
            ⟨some "bk1", some "pi-77"⟩ 1)
          "bk1" { d1 with updatedAt := 2 }) ∧
    (∃ d1, storeGet
        (handlePaymentIntentSucceeded oneBookingStore ⟨"pi-9", some "bk1"⟩ 1)
        "bk1" = some d1 ∧
      d1.status = .confirmed ∧
      handlePaymentIntentSucceeded
          (handlePaymentIntentSucceeded oneBookingStore ⟨"pi-9", some "bk1"⟩ 1)
          ⟨"pi-9", some "bk1"⟩ 2 =
        storeSet
          (handlePaymentIntentSucceeded oneBookingStore ⟨"pi-9", some "bk1"⟩ 1)
          "bk1" { d1 with updatedAt := 2 }) :=
  webhook_redelivery_only_bumps_updatedAt oneBookingStore "bk1" pendingBooking
    (some "pi-77") "pi-9" 1 2 (by decide)

/-- Claim C5: the webhook endpoint answers 503 when Stripe is not
configured, 400 with no store mutation on a bad signature, and 200 with
no store mutation for a validly signed event of unrecognized type. -/
theorem webhook_response_codes (s : Store) (sv : Bool) (ev : WebhookEvent)
    (eventType : String) (t : Int) :
    handleStripeWebhook false sv ev s t = (.notConfigured, s) ∧
    handleStripeWebhook true false ev s t = (.badSignature, s) ∧
    handleStripeWebhook true true (.other eventType) s t = (.received, s) ∧
    webhookStatusCode .notConfigured = 503 ∧
    webhookStatusCode .badSignature = 400 ∧
    webhookStatusCode .received = 200 := by
  refine ⟨?_, ?_, ?_, rfl, rfl, rfl⟩ <;> simp [handleStripeWebhook]

/-- Claim C6: the dispatcher tries email first and stops there on
success; when email is unconfigured or fails it tries WhatsApp; on any
success the booking is stamped (ownerNotifiedAt = now, updatedAt = now);
when both channels are unconfigured or fail the document is untouched. -/
theorem notification_fallback_spec (b : BookingDoc) (now : Int)
    (wa : ChannelOutcome) :
    notifyOwnerOnBooking .sent wa b now =
      ({ b with ownerNotifiedAt := some now, updatedAt := now }, [.email]) ∧
    notifyOwnerOnBooking .unconfigured .sent b now =
      ({ b with ownerNotifiedAt := some now, updatedAt := now },
        [.email, .whatsapp]) ∧
    notifyOwnerOnBooking .failed .sent b now =
      ({ b with ownerNotifiedAt := some now, updatedAt := now },
        [.email, .whatsapp]) ∧
    notifyOwnerOnBooking .unconfigured .unconfigured b now =
      (b, [.email, .whatsapp]) ∧
    notifyOwnerOnBooking .unconfigured .failed b now =
      (b, [.email, .whatsapp]) ∧
    notifyOwnerOnBooking .failed .unconfigured b now =
      (b, [.email, .whatsapp]) ∧
    notifyOwnerOnBooking .failed .failed b now =
      (b, [.email, .whatsapp]) :=
  ⟨rfl, rfl, rfl, rfl, rfl, rfl, rfl⟩

/-- A form submission whose notes field is the empty string (the home
component initializes notes to ""). -/
def emptyNotesForm : BookingFormData :=
  { customerName := "Jane Doe"
    customerPhone := "+23012345"
    serviceName := "Car Rental"
    bookingDate := .day 19875
    notes := some "" }

/-- Claim C7 (amended): `createBooking` always produces a pending
document with createdAt = updatedAt and no paidAt; customerEmail and the
three date fields are included exactly when the form value is non-empty
(and a stored email is never empty), but the notes field is copied into
the document unconditionally, so an empty notes string is stored rather
than omitted. -/
theorem createBooking_document_shape (fd : BookingFormData) (now : Int) :
    (createBooking fd now).status = .pending ∧
    (createBooking fd now).createdAt = (createBooking fd now).updatedAt ∧
    (createBooking fd now).paidAt = none ∧
    ((createBooking fd now).customerEmail = none ∨
      ∃ e, (createBooking fd now).customerEmail = some e ∧ e ≠ "") ∧
    ((createBooking fd now).customerEmail = none ↔
      (fd.customerEmail.map String.trim = none ∨
        fd.customerEmail.map String.trim = some "")) ∧
    ((createBooking fd now).bookingDate = none ↔ fd.bookingDate = .empty) ∧
    ((createBooking fd now).rentalStart = none ↔ fd.startDate = .empty) ∧
    ((createBooking fd now).rentalEnd = none ↔ fd.endDate = .empty) ∧
    (createBooking fd now).notes = fd.notes := by
  refine ⟨rfl, rfl, rfl, ?_, ?_, ?_, ?_, ?_, rfl⟩
  · match h : fd.customerEmail with
    | none => exact Or.inl (by simp [createBooking, h])
    | some e =>
        by_cases ht : e.trim = ""
        · exact Or.inl (by simp [createBooking, h, ht])
        · exact Or.inr ⟨e.trim, by simp [createBooking, h, ht], ht⟩
  · match h : fd.customerEmail with
    | none => simp [createBooking, h]
    | some e =>
        by_cases ht : e.trim = "" <;> simp [createBooking, h, ht]
  · cases h : fd.bookingDate <;> simp [createBooking, truthyDate, h]
  · cases h : fd.startDate <;> simp [createBooking, truthyDate, h]
  · cases h : fd.endDate <;> simp [createBooking, truthyDate, h]

/-- Claim C7 counterexample: a submission with an empty notes string is
stored with the notes field present and empty, so the notes field is not
"included only when non-empty". -/
theorem createBooking_empty_notes_stored :
    (createBooking emptyNotesForm 0).notes = some "" ∧
    ¬((createBooking emptyNotesForm 0).notes = none ∨
      ∃ s, (createBooking emptyNotesForm 0).notes = some s ∧ s ≠ "") := by
  refine ⟨rfl, fun h => ?_⟩
  rcases h with h | ⟨s, hs, hne⟩
  · exact Option.noConfusion (show (some "" : Option String) = none from h)
  · exact hne ((Option.some.inj (show (some "" : Option String) = some s from hs)).symm)

/-- Claim C8: submitting a car-rental booking whose start date is after
its end date is rejected by validation and inserts nothing into the
store. -/
theorem submitBooking_rejects_reversed_dates (fd : BookingFormData) (s : Store)
    (now : Int) (newId : String) (ds de : Int)
    (hsd : fd.startDate = .day ds) (hed : fd.endDate = .day de)
    (hlt : de < ds) :
    submitBooking "car-rental" fd s now newId = (.validationError, s) := by
  have hms : de * dayMs < ds * dayMs := by
    have hpos : (0 : Int) < dayMs := by norm_num [dayMs]
    exact mul_lt_mul_of_pos_right hlt hpos
  simp [submitBooking, hsd, hed, truthyDate, parseDate, jsDateLt, hms]

/-- A car-rental form whose start date (2024-03-03) is after its end
date (2024-03-01). -/
def reversedDatesForm : BookingFormData :=
  { customerName := "Jane Doe"
    customerPhone := "+23012345"
    serviceName := "Car Rental"
    startDate := .day 19785
    endDate := .day 19783 }

/-- Claim C8 witness: the concrete reversed-dates submission against the
one-booking store is rejected and the store is unchanged. -/
theorem submitBooking_rejects_reversed_dates_witness :
    submitBooking "car-rental" reversedDatesForm oneBookingStore 0 "bk2" =
      (.validationError, oneBookingStore) :=
  submitBooking_rejects_reversed_dates reversedDatesForm oneBookingStore 0 "bk2"
    19785 19783 rfl rfl (by norm_num)

/-- On two parsed calendar dates, `rentalDays` is the inclusive day
count, clamped at zero. -/
theorem rentalDays_day_day (s e : Int) :
    rentalDays (.day s) (.day e) = if 0 < e - s + 1 then e - s + 1 else 0 := by
  have h1 : e * dayMs - s * dayMs = (e - s) * dayMs := by ring
  have h2 : Int.fdiv ((e - s) * dayMs) dayMs = e - s :=
    Int.mul_fdiv_cancel _ (by norm_num [dayMs])
  simp only [rentalDays, truthyDate, parseDate, h1, h2]
  norm_num

/-- Exact ceiling division of a multiple. -/
theorem ceilDivInt_mul (a b : Int) (h : b ≠ 0) : ceilDivInt (a * b) b = a := by
  rw [ceilDivInt, ← neg_mul, Int.mul_fdiv_cancel _ h, neg_neg]

/-- Claim C9: for parsed calendar-date pairs the computed rental day
count is `ceil(ms_difference / day_ms) + 1` when that value is positive
and 0 otherwise; missing or unparseable dates give 0; the rental total
is the day count times the per-day price; and 2024-03-01 (day 19783) to
2024-03-03 (day 19785) gives 3 days and 3 × the price. -/
theorem rentalDays_rentalTotal_spec (s e pricePerDay : Int) (sd ed : DateField) :
    (0 < e - s + 1 →
      rentalDays (.day s) (.day e) = ceilDivInt ((e - s) * dayMs) dayMs + 1) ∧
    (e - s + 1 ≤ 0 → rentalDays (.day s) (.day e) = 0) ∧
    rentalDays .empty ed = 0 ∧
    rentalDays sd .empty = 0 ∧
    rentalDays .invalid (.day e) = 0 ∧
    rentalDays (.day s) .invalid = 0 ∧
    rentalDays .invalid .invalid = 0 ∧
    rentalTotal true pricePerDay sd ed = rentalDays sd ed * pricePerDay ∧
    rentalDays (.day 19783) (.day 19785) = 3 ∧
    rentalTotal true pricePerDay (.day 19783) (.day 19785) = 3 * pricePerDay := by
  have hconc : rentalDays (.day 19783) (.day 19785) = 3 := by
    rw [rentalDays_day_day]
    norm_num
  refine ⟨?_, ?_, ?_, ?_, ?_, ?_, ?_, ?_, hconc, ?_⟩
  · intro h
    rw [rentalDays_day_day, if_pos h,
      ceilDivInt_mul _ _ (by norm_num [dayMs])]
  · intro h
    rw [rentalDays_day_day, if_neg (by omega)]
  · rfl
  · cases sd <;> simp [rentalDays, truthyDate]
  · rfl
  · rfl
  · rfl
  · simp [rentalTotal]
  · simp [rentalTotal, hconc]

/-- Claim C9 witness: the theorem at the concrete 2024-03-01/2024-03-03
pair (and the reversed pair for the clamped branch), with price 50. -/
theorem rentalDays_rentalTotal_spec_witness :
    rentalDays (.day 19783) (.day 19785) =
      ceilDivInt ((19785 - 19783) * dayMs) dayMs + 1 ∧
    rentalDays (.day 19785) (.day 19783) = 0 ∧
    rentalTotal true 50 (.day 19783) (.day 19785) =
      rentalDays (.day 19783) (.day 19785) * 50 ∧
    rentalDays (.day 19783) (.day 19785) = 3 ∧
    rentalTotal true 50 (.day 19783) (.day 19785) = 3 * 50 := by
  obtain ⟨a1, -, -, -, -, -, -, a8, a9, a10⟩ :=
    rentalDays_rentalTotal_spec 19783 19785 50 (.day 19783) (.day 19785)
  obtain ⟨-, b2, -, -, -, -, -, -, -, -⟩ :=
    rentalDays_rentalTotal_spec 19785 19783 50 (.day 19785) (.day 19783)
  exact ⟨a1 (by norm_num), b2 (by norm_num), a8, a9, a10⟩

/-- Claim C10: a validly signed recognized confirmation event with no
bookingId in its metadata mutates nothing and still gets 200
received=true; and when the booking id it carries does not exist the
store update fails, the error is swallowed, and the response is still
200 — so the confirmation is lost without a provider retry. -/
theorem webhook_confirmation_losses (s : Store) (piOpt : Option String)
    (intId : String) (t : Int) (id : String) (h : storeGet s id = none) :
    handleStripeWebhook true true (.checkout ⟨none, piOpt⟩) s t =
      (.received, s) ∧
    handleStripeWebhook true true (.intent ⟨intId, none⟩) s t =
      (.received, s) ∧
    handleStripeWebhook true true (.checkout ⟨some id, piOpt⟩) s t =
      (.received, s) ∧
    handleStripeWebhook true true (.intent ⟨intId, some id⟩) s t =
      (.received, s) ∧
    webhookStatusCode .received = 200 := by
  refine ⟨?_, ?_, ?_, ?_, rfl⟩
  · simp [handleStripeWebhook, handleCheckoutSessionCompleted]
  · simp [handleStripeWebhook, handlePaymentIntentSucceeded]
  · simp [handleStripeWebhook, handleCheckoutSessionCompleted,
      firestoreUpdate, h]
  · simp [handleStripeWebhook, handlePaymentIntentSucceeded,
      firestoreUpdate, h]

/-- Claim C10 witness: the theorem at the empty store with an id that is
not present. -/
theorem webhook_confirmation_losses_witness :
    handleStripeWebhook true true (.checkout ⟨none, some "pi-1"⟩) [] 4 =
      (.received, []) ∧
    handleStripeWebhook true true (.intent ⟨"pi-2", none⟩) [] 4 =
      (.received, []) ∧
    handleStripeWebhook true true (.checkout ⟨some "missing", some "pi-1"⟩) [] 4 =
      (.received, []) ∧
    handleStripeWebhook true true (.intent ⟨"pi-2", some "missing"⟩) [] 4 =
      (.received, []) ∧
    webhookStatusCode .received = 200 :=
  webhook_confirmation_losses [] (some "pi-1") "pi-2" 4 "missing" rfl

end Shanal
